import Mathlib

/-!
Verification of the 24fire-api-cli repository (src/main.py, src/launcher.py)
against its natural-language specification.

The Python script is shallowly embedded: pure data manipulation becomes Lean
functions, HTTP effects become explicit values (`HttpResult` for the outcome of
the one services fetch each resolver performs; emitted requests are collected
into `List Request` traces), and `sys.exit`/fall-through control flow becomes an
`Outcome` value.  Machine integers do not occur; the numeric JSON values of the
traffic formatter are modelled as exact rationals (see the comments there).
-/

namespace FireCLI

/-- One raw service record of the services JSON
(`json['data']['services'][TYPE][i]`): the fields `find_kvm_server`,
`find_domain` and `extract_services` read. -/
structure SvcEntry where
  name : String
  internal_id : String
deriving DecidableEq, Repr

/-- The `services` JSON object: a key-ordered association list from a type key
("KVM" / "WEBSPACE" / "DOMAIN") to its sub-list, preserving JSON object
insertion order as Python dicts do. -/
abbrev Services : Type := List (String × List SvcEntry)

/-- A resolved service record as built by the resolvers (`server.copy()` plus
an added `type` key) and by `extract_services`. -/
structure Service where
  name : String
  internal_id : String
  type : String
deriving DecidableEq, Repr

/-- Python `dict.get(key, default)` on a JSON object with (unique) string
keys. -/
def dictGetD (m : List (String × List SvcEntry)) (k : String)
    (d : List SvcEntry) : List SvcEntry :=
  match m.find? (fun p => p.1 == k) with
  | some p => p.2
  | none => d

/-- Outcome of the `requests.get` call on /account/services together with the
JSON extraction `json['data']['services']`: HTTP 200 with the parsed services
object, a non-200 status code, or a raised exception (network or parse error;
`requests` exceptions and `.json()` failures land in the callers' generic
handlers). -/
inductive HttpResult where
  | ok (svcs : Services)
  | httpError (code : Nat)
  | exn

/-- The match test of the resolvers, main.py lines 78-79 and 1175-1176:
`server['name'] == server_identifier or server['internal_id'] == server_identifier`. -/
def resolverMatch (ident : String) (e : SvcEntry) : Bool :=
  e.name == ident || e.internal_id == ident

/-- main.py `find_kvm_server` (lines 61-88): fetch the services object, return
None on non-200 or exception, else linearly scan the "KVM" sub-list and return
the first record whose name or internal_id equals the identifier, with a
`type: KVM` field added; None when no record matches. -/
def find_kvm_server (fetch : HttpResult) (ident : String) : Option Service :=
  match fetch with
  | .ok svcs =>
      match (dictGetD svcs "KVM" []).find? (resolverMatch ident) with
      | some e => some ⟨e.name, e.internal_id, "KVM"⟩
      | none => none
  | .httpError _ => none
  | .exn => none

/-- main.py `find_domain` (lines 1158-1185): identical to `find_kvm_server`
but scanning the "DOMAIN" sub-list and tagging the result with type DOMAIN. -/
def find_domain (fetch : HttpResult) (ident : String) : Option Service :=
  match fetch with
  | .ok svcs =>
      match (dictGetD svcs "DOMAIN" []).find? (resolverMatch ident) with
      | some e => some ⟨e.name, e.internal_id, "DOMAIN"⟩
      | none => none
  | .httpError _ => none
  | .exn => none

/-- A successful `List.find?` yields the first satisfying element: its index
exists, the element satisfies the predicate, and every earlier element fails
it. -/
lemma findFirstIndex {α : Type} (p : α → Bool) (l : List α) (a : α)
    (h : l.find? p = some a) :
    ∃ i, ∃ hi : i < l.length, l.get ⟨i, hi⟩ = a ∧ p a = true ∧
      ∀ j, ∀ hj : j < l.length, j < i → p (l.get ⟨j, hj⟩) = false := by
  induction l with
  | nil => simp [List.find?] at h
  | cons x xs ih =>
      by_cases hx : p x = true
      · rw [List.find?_cons_of_pos _ hx] at h
        obtain rfl : x = a := by injection h
        exact ⟨0, by simp, rfl, hx, fun j hj hji => by omega⟩
      · rw [List.find?_cons_of_neg _ hx] at h
        obtain ⟨i, hi, hget, hpa, hprev⟩ := ih h
        refine ⟨i + 1, by simpa using Nat.succ_lt_succ hi, hget, hpa, ?_⟩
        intro j hj hji
        cases j with
        | zero => simpa using hx
        | succ j =>
            exact hprev j (by simpa using Nat.lt_of_succ_lt_succ hj)
              (Nat.lt_of_succ_lt_succ hji)

/-- HTTP verbs used by the script (`requests.get/post/put/delete`). -/
inductive Method where
  | get
  | post
  | put
  | delete
deriving DecidableEq, Repr

/-- One issued HTTP request: verb, full URL, and form body (the `data=` dict,
in insertion order).  Headers carry only the constant API key / content type
and are omitted. -/
structure Request where
  method : Method
  url : String
  body : List (String × String)
deriving DecidableEq, Repr

/-- Fixed base of every endpoint URL in main.py. -/
def apiBase : String := "https://manage.24fire.de/api"

/-- The GET /account/services request both resolvers and `request_data`
issue. -/
def servicesRequest : Request := ⟨.get, apiBase ++ "/account/services", []⟩

/-- The POST power-control request of `control_kvm_server`, main.py
lines 100-108: URL built from the resolved internal_id, form body
mode=start|stop|restart. -/
def powerRequest (internal_id mode : String) : Request :=
  ⟨.post, apiBase ++ "/kvm/" ++ internal_id ++ "/power", [("mode", mode)]⟩

/-- Requests issued by main.py `control_kvm_server` (lines 90-143): the
services fetch of `find_kvm_server`, then - only when a server was resolved -
the power POST.  The response handling (lines 110-143) only prints text and is
not part of the trace. -/
def control_kvm_server (fetch : HttpResult) (ident mode : String) :
    List Request :=
  servicesRequest ::
    match find_kvm_server fetch ident with
    | none => []
    | some server => [powerRequest server.internal_id mode]

/-- Requests issued by main.py `handle_backup_request` (lines 252-337). -/
def handle_backup_request (fetch : HttpResult) (action target : String)
    (backup_id : Option String) : List Request :=
  servicesRequest ::
    match find_kvm_server fetch target with
    | none => []
    | some server =>
        let id := server.internal_id
        if action == "list" then
          [⟨.get, apiBase ++ "/kvm/" ++ id ++ "/backup/list", []⟩]
        else if action == "create" then
          [⟨.post, apiBase ++ "/kvm/" ++ id ++ "/backup/create", []⟩]
        else if action == "restore" then
          [⟨.post, apiBase ++ "/kvm/" ++ id ++ "/backup/restore",
            [("backup_id", backup_id.getD "")]⟩]
        else if action == "delete" then
          [⟨.delete, apiBase ++ "/kvm/" ++ id ++ "/backup/delete",
            [("backup_id", backup_id.getD "")]⟩]
        else []

/-- Requests issued by main.py `handle_traffic` (lines 494-529). -/
def handle_traffic (fetch : HttpResult) (target action : String) :
    List Request :=
  servicesRequest ::
    match find_kvm_server fetch target with
    | none => []
    | some server =>
        let id := server.internal_id
        if action == "usage" then
          [⟨.get, apiBase ++ "/kvm/" ++ id ++ "/traffic/current", []⟩]
        else if action == "logs" then
          [⟨.get, apiBase ++ "/kvm/" ++ id ++ "/traffic/log", []⟩]
        else []

/-- Requests issued by main.py `handle_monitoring` (lines 837-891). -/
def handle_monitoring (fetch : HttpResult) (target action : String) :
    List Request :=
  servicesRequest ::
    match find_kvm_server fetch target with
    | none => []
    | some server =>
        let id := server.internal_id
        if action == "outages" then
          [⟨.get, apiBase ++ "/kvm/" ++ id ++ "/monitoring/incidences", []⟩]
        else if action == "reading" then
          [⟨.get, apiBase ++ "/kvm/" ++ id ++ "/monitoring/timings", []⟩]
        else []

/-- Requests issued by main.py `handle_ddos` (lines 1066-1094). -/
def handle_ddos (fetch : HttpResult) (target : String) : List Request :=
  servicesRequest ::
    match find_kvm_server fetch target with
    | none => []
    | some server => [⟨.get, apiBase ++ "/kvm/" ++ server.internal_id ++ "/ddos", []⟩]

/-- Observable outcome of main.py `install_automations` (lines 1096-1156):
either the target did not resolve (prints a not-found message and returns), or
the hard-coded `if 1==1` block printed the not-finished message and called
`sys.exit(0)`, or - dead code - the download/execute logic would have run. -/
inductive InstallOutcome where
  | notFoundMsg
  | notFinishedExit
  | installWork
deriving DecidableEq, Repr

/-- main.py `install_automations` (lines 1096-1156): the services fetch of the
resolver, then the outcome; the installation logic after the `if 1==1` exit is
unreachable and therefore never issues work. -/
def install_automations (fetch : HttpResult) (target : String) :
    List Request × InstallOutcome :=
  (servicesRequest ::
      match find_kvm_server fetch target with
      | none => []
      | some _ => [],
    match find_kvm_server fetch target with
    | none => .notFoundMsg
    | some _ => if (1 : Nat) = 1 then .notFinishedExit else .installWork)

/-- Requests issued by main.py `handle_dns_remove` (lines 1187-1213). -/
def handle_dns_remove (fetch : HttpResult) (target record_id : String) :
    List Request :=
  servicesRequest ::
    match find_domain fetch target with
    | none => []
    | some d =>
        [⟨.delete, apiBase ++ "/domain/" ++ d.internal_id ++ "/dns/remove",
          [("record_id", record_id)]⟩]

/-- Requests issued by main.py `handle_dns_add` (lines 1220-1256). -/
def handle_dns_add (fetch : HttpResult) (target ty name data : String) :
    List Request :=
  servicesRequest ::
    match find_domain fetch target with
    | none => []
    | some d =>
        [⟨.put, apiBase ++ "/domain/" ++ d.internal_id ++ "/dns/add",
          [("type", ty), ("name", name), ("data", data)]⟩]

/-- Requests issued by main.py `handle_dns_edit` (lines 1258-1297). -/
def handle_dns_edit (fetch : HttpResult) (target rid ty name data : String) :
    List Request :=
  servicesRequest ::
    match find_domain fetch target with
    | none => []
    | some d =>
        [⟨.post, apiBase ++ "/domain/" ++ d.internal_id ++ "/dns/edit",
          [("record_id", rid), ("type", ty), ("name", name), ("data", data)]⟩]

/-- Requests issued by main.py `handle_dns_list` (lines 1299-1330). -/
def handle_dns_list (fetch : HttpResult) (target : String) : List Request :=
  servicesRequest ::
    match find_domain fetch target with
    | none => []
    | some d =>
        [⟨.get, apiBase ++ "/domain/" ++ d.internal_id ++ "/dns", []⟩]

/-- The parsed argparse namespace (main.py lines 1435-1488).  A flag that takes
a value is `none` when absent and `some v` when supplied with value `v`;
store_true flags are Bool.  argparse restricts `backup`, `traffic`,
`monitoring` and `dns` to their choices lists but the model keeps them as plain
strings, exactly as the downstream code receives them. -/
structure Args where
  api_key : Option String
  start : Option String
  stop : Option String
  restart : Option String
  backup : Option String
  target : Option String
  backup_id : Option String
  traffic : Option String
  monitoring : Option String
  ddos : Bool
  install : Bool
  script_url : Option String
  dns : Option String
  remove : Option String
  add : Option String
  edit : Option String
deriving DecidableEq, Repr

/-- The all-absent argparse namespace (no flag supplied). -/
def noArgs : Args :=
  ⟨none, none, none, none, none, none, none, none, none, false, false,
    none, none, none, none, none⟩

/-- Python truthiness of an optional string argument: absent and the empty
string are falsy (`if args.start:` and friends). -/
def truthy : Option String → Bool
  | none => false
  | some s => !s.isEmpty

/-- Unwraps an optional argument on paths where the source has already
established truthiness (the empty default is unreachable there). -/
def oget (o : Option String) : String := o.getD ""

/-- Splits a character list at every comma; `[[]]` for the empty input, like
Python `s.split(',')` which returns `[""]` for the empty string. -/
def splitCommaChars : List Char → List (List Char)
  | [] => [[]]
  | c :: cs =>
      if c = ',' then [] :: splitCommaChars cs
      else
        match splitCommaChars cs with
        | [] => [[c]]
        | p :: ps => (c :: p) :: ps

/-- Python `s.split(',')`: the comma-separated fields, empty fields kept. -/
def pySplitComma (s : String) : List String :=
  (splitCommaChars s.toList).map (fun l => String.mk l)

/-- Python `s.strip()`: drop ASCII whitespace from both ends. -/
def pyStrip (s : String) : String :=
  String.mk
    (((s.toList.dropWhile Char.isWhitespace).reverse.dropWhile
      Char.isWhitespace).reverse)

/-- Python `s.split(',', 2)`: at most two splits, the remainder keeps its
commas. -/
def pySplitComma2 (s : String) : List String :=
  match pySplitComma s with
  | a :: b :: c :: rest => [a, b, String.intercalate "," (c :: rest)]
  | parts => parts

/-- Python `s.split(',', 3)`: at most three splits. -/
def pySplitComma3 (s : String) : List String :=
  match pySplitComma s with
  | a :: b :: c :: d :: rest => [a, b, c, String.intercalate "," (d :: rest)]
  | parts => parts

/-- How one process invocation of the flag dispatcher ends: `sys.exit(code)`
inside `get_api_key`, or falling through to return the API key, after which
the interactive menu of `main` runs. -/
inductive Outcome where
  | exited (code : Nat)
  | interactive
deriving DecidableEq, Repr

/-- The power branch of main.py `get_api_key` (lines 1491-1501): inner
if/elif/elif on the truthy power flags, then `sys.exit(0)`. -/
def dispatchPower (args : Args) (fetch : HttpResult) :
    List Request × Outcome :=
  (if truthy args.start then
      control_kvm_server fetch (oget args.start) "start"
    else if truthy args.stop then
      control_kvm_server fetch (oget args.stop) "stop"
    else if truthy args.restart then
      control_kvm_server fetch (oget args.restart) "restart"
    else [], .exited 0)

/-- The backup branch of main.py `get_api_key` (lines 1504-1520). -/
def dispatchBackup (args : Args) (fetch : HttpResult) :
    List Request × Outcome :=
  if !truthy args.target then ([], .exited 1)
  else if (args.backup == some "restore" || args.backup == some "delete")
      && !truthy args.backup_id then ([], .exited 1)
  else
    (handle_backup_request fetch (oget args.backup) (oget args.target)
      args.backup_id, .exited 0)

/-- The traffic branch of main.py `get_api_key` (lines 1523-1533). -/
def dispatchTraffic (args : Args) (fetch : HttpResult) :
    List Request × Outcome :=
  if !truthy args.target then ([], .exited 1)
  else (handle_traffic fetch (oget args.target) (oget args.traffic),
    .exited 0)

/-- The monitoring branch of main.py `get_api_key` (lines 1535-1545). -/
def dispatchMonitoring (args : Args) (fetch : HttpResult) :
    List Request × Outcome :=
  if !truthy args.target then ([], .exited 1)
  else (handle_monitoring fetch (oget args.target) (oget args.monitoring),
    .exited 0)

/-- The install branch of main.py `get_api_key` (lines 1548-1557). -/
def dispatchInstall (args : Args) (fetch : HttpResult) :
    List Request × Outcome :=
  if !truthy args.target then ([], .exited 1)
  else ((install_automations fetch (oget args.target)).1, .exited 0)

/-- The dns branch of main.py `get_api_key` (lines 1560-1607): action
selection, companion validation, the split-and-unpack parsing of --add and
--edit (a ValueError exits 1), then `sys.exit(0)`. -/
def dispatchDns (args : Args) (fetch : HttpResult) :
    List Request × Outcome :=
  if !truthy args.target then ([], .exited 1)
  else if oget args.dns == "remove" then
    if !truthy args.remove then ([], .exited 1)
    else
      (handle_dns_remove fetch (oget args.target) (oget args.remove),
        .exited 0)
  else if oget args.dns == "add" then
    if !truthy args.add then ([], .exited 1)
    else
      match pySplitComma2 (oget args.add) with
      | [t0, n0, d0] =>
          (handle_dns_add fetch (oget args.target) (pyStrip t0) (pyStrip n0) (pyStrip d0),
            .exited 0)
      | _ => ([], .exited 1)
  else if oget args.dns == "edit" then
    if !truthy args.edit then ([], .exited 1)
    else
      match pySplitComma3 (oget args.edit) with
      | [r0, t0, n0, d0] =>
          (handle_dns_edit fetch (oget args.target) (pyStrip r0) (pyStrip t0)
            (pyStrip n0) (pyStrip d0), .exited 0)
      | _ => ([], .exited 1)
  else if oget args.dns == "" then
    (handle_dns_list fetch (oget args.target), .exited 0)
  else ([], .exited 0)

/-- The ddos branch of main.py `get_api_key` (lines 1610-1620). -/
def dispatchDdos (args : Args) (fetch : HttpResult) :
    List Request × Outcome :=
  if !truthy args.target then ([], .exited 1)
  else (handle_ddos fetch (oget args.target), .exited 0)

/-- The flag dispatcher of main.py `get_api_key` (lines 1488-1630): the
if-chain over the parsed arguments, in source order (power, backup, traffic,
monitoring, install, dns, ddos), each branch validating companions, invoking
its handler and exiting; with no action flag the function returns the API key
and the interactive menu runs.  Returns the emitted request trace and the
process outcome.  All handler responses only affect printed text, never the
trace or the exit code, so the dispatcher needs only the services-fetch
outcome. -/
def get_api_key_dispatch (args : Args) (fetch : HttpResult) :
    List Request × Outcome :=
  if truthy args.start || truthy args.stop || truthy args.restart then
    dispatchPower args fetch
  else if truthy args.backup then dispatchBackup args fetch
  else if truthy args.traffic then dispatchTraffic args fetch
  else if truthy args.monitoring then dispatchMonitoring args fetch
  else if args.install then dispatchInstall args fetch
  else if args.dns.isSome then dispatchDns args fetch
  else if args.ddos then dispatchDdos args fetch
  else ([], .interactive)

/-- main.py `extract_services` (lines 1635-1649): flatten the services object
into one flat record list, iterating the type keys in dict order and each
sub-list in order, emitting one record per service with the type key
attached. -/
def extract_services (svcs : Services) : List Service :=
  svcs.flatMap (fun ts => ts.2.map (fun e => ⟨e.name, e.internal_id, ts.1⟩))

/-- Result of main.py `request_data` (lines 1658-1671) for the interactive
path: on HTTP 200 the extracted flat service list, otherwise `sys.exit(1)`
(non-200 prints the error message and exits 1; an exception escapes the
function uncaught - there is no try block - and the interpreter terminates
with status 1). -/
inductive ReqDataResult where
  | exitOne
  | ok (services : List Service)
deriving DecidableEq, Repr

/-- main.py `request_data`: trace and result.  The numbered-services dict it
also returns is never used for the menu selection (`main` indexes the flat
list directly) and is omitted. -/
def request_data (fetch : HttpResult) : List Request × ReqDataResult :=
  ([servicesRequest],
    match fetch with
    | .ok svcs => .ok (extract_services svcs)
    | .httpError _ => .exitOne
    | .exn => .exitOne)

/-- The single info request main.py `fetch_infos` (lines 1673-1690) issues for
a selected service, by type; an unknown type prints an error and issues
nothing. -/
def fetch_infos_req (internal_id ty : String) : Option Request :=
  if ty == "KVM" then
    some ⟨.get, apiBase ++ "/kvm/" ++ internal_id ++ "/config", []⟩
  else if ty == "WEBSPACE" then
    some ⟨.get, apiBase ++ "/webspace/" ++ internal_id, []⟩
  else if ty == "DOMAIN" then
    some ⟨.get, apiBase ++ "/domain/" ++ internal_id, []⟩
  else none

/-- What the interactive menu does with one line of user input: enter the
extras sub-menu, select a service (carrying the `fetch_infos` request it
triggers), or print the invalid-selection message and do nothing further. -/
inductive MenuOutcome where
  | extras
  | select (s : Service) (req : Option Request)
  | invalid
deriving DecidableEq, Repr

/-- Python `user_input.isdigit()` and `int(user_input)` for ASCII input: the
numeric value when the string is non-empty and all digits (Python accepts
some further unicode digit forms, out of scope here). -/
def pyDigitsToNat (s : String) : Option Nat :=
  if !s.toList.isEmpty && s.toList.all (fun c => c.isDigit) then
    some (s.toList.foldl (fun n c => n * 10 + (c.toNat - 48)) 0)
  else none

/-- The input handling of main.py `main` (lines 1908-1920): "0" enters extras;
a digit string whose value k satisfies 1 <= k <= len(data) selects
data[k - 1] and fetches its info; anything else prints the invalid-selection
message and nothing further happens. -/
def main_menu_choice (data : List Service) (input : String) : MenuOutcome :=
  if input == "0" then .extras
  else
    match pyDigitsToNat input with
    | some k =>
        if h : 1 ≤ k ∧ k ≤ data.length then
          .select (data.get ⟨k - 1, by omega⟩)
            (fetch_infos_req (data.get ⟨k - 1, by omega⟩).internal_id
              (data.get ⟨k - 1, by omega⟩).type)
        else .invalid
    | none => .invalid

/-- An exact rational as an unreduced fraction with positive denominator.
Every construction below keeps the denominator positive.  Arithmetic is
implemented directly on the integer pair so that the kernel can evaluate it
(Lean's normalising Rat does not reduce in the kernel). -/
structure Frac where
  num : Int
  den : Nat
deriving DecidableEq, Repr

/-- The integer n as a fraction. -/
def Frac.ofInt (n : Int) : Frac := ⟨n, 1⟩

/-- Fraction multiplication. -/
def Frac.mul (a b : Frac) : Frac := ⟨a.num * b.num, a.den * b.den⟩

/-- Fraction division; callers divide only by nonzero values (Python raises
ZeroDivisionError otherwise, and every division below is guarded in the
source). -/
def Frac.div (a b : Frac) : Frac :=
  if b.num < 0 then ⟨-(a.num * (b.den : Int)), a.den * b.num.natAbs⟩
  else ⟨a.num * (b.den : Int), a.den * b.num.natAbs⟩

/-- Strict fraction comparison by cross-multiplication (denominators are
positive). -/
def Frac.blt (a b : Frac) : Bool := a.num * (b.den : Int) < b.num * (a.den : Int)

/-- Whether the fraction is zero (denominators are positive, so this is the
numerator test). -/
def Frac.isZero (a : Frac) : Bool := a.num == 0

/-- Floor of a fraction: Euclidean division by the positive denominator. -/
def Frac.floor (a : Frac) : Int := a.num.ediv (a.den : Int)

/-- Parsed JSON values as Python receives them from `response.json()`.
Numbers keep Python's int/float distinction; float payloads are exact
fractions.  Every concrete number fed to the theorems below is exactly
representable as an IEEE double (12.5, 5, 7.5, 1000, 987.5 and the derived
1.25 are all dyadic), so exact rational arithmetic coincides with Python
float arithmetic on them; in particular Python evaluates (12.5/1000)*100 to
exactly 1.25. -/
inductive Json where
  | int (n : Int)
  | float (q : Frac)
  | str (s : String)
  | bool (b : Bool)
  | null
  | obj (kvs : List (String × Json))
  | arr (items : List Json)

/-- Python truthiness of a JSON value. -/
def jsonTruthy : Json → Bool
  | .int n => n != 0
  | .float q => !q.isZero
  | .str s => !s.isEmpty
  | .bool b => b
  | .null => false
  | .obj kvs => !kvs.isEmpty
  | .arr items => !items.isEmpty

/-- Whether the value is a Python dict. -/
def Json.isObj : Json → Bool
  | .obj _ => true
  | _ => false

/-- Python `d.get(key)` on a dict: None when the key is absent. -/
def jGetNull (kvs : List (String × Json)) (k : String) : Json :=
  match kvs.find? (fun p => p.1 == k) with
  | some p => p.2
  | none => .null

/-- Python `d.get(key, default)` on a dict. -/
def jGetD (kvs : List (String × Json)) (k : String) (d : Json) : Json :=
  match kvs.find? (fun p => p.1 == k) with
  | some p => p.2
  | none => d

/-- Python `isinstance(v, (int, float))`: true for ints, floats and bools
(bool is a subclass of int). -/
def jsonIsNum : Json → Bool
  | .int _ => true
  | .float _ => true
  | .bool _ => true
  | _ => false

/-- Numeric value of an int/float/bool JSON value. -/
def jsonNumVal : Json → Frac
  | .int n => .ofInt n
  | .float q => q
  | .bool b => if b then .ofInt 1 else .ofInt 0
  | _ => .ofInt 0

/-- Round a nonnegative fraction to the nearest integer, ties to even - the
rounding Python's fixed-point float formatting applies to the decimal
expansion.  The floor f and the remainder r = num - f * den satisfy
frac = r / den; comparing 2r with den compares frac with one half. -/
def roundHalfEven (a : Frac) : Int :=
  let f := a.floor
  let r := a.num - f * (a.den : Int)
  if 2 * r < (a.den : Int) then f
  else if (a.den : Int) < 2 * r then f + 1
  else if f % 2 = 0 then f else f + 1

/-- Decimal digits of a natural number left-padded with zeros to the given
width. -/
def padZeros (n : Nat) (width : Nat) : String :=
  let s := toString n
  String.mk (List.replicate (width - s.length) '0') ++ s

/-- Python fixed-point formatting of an exact rational (the f-string `:.pf`):
sign-magnitude, p digits after the point, round half to even.  Agrees with
Python whenever the rational is exactly the double being formatted. -/
def fmtFixed (a : Frac) (p : Nat) : String :=
  let sign := if a.num < 0 then "-" else ""
  let n := (roundHalfEven ⟨(a.num.natAbs : Int) * 10 ^ p, a.den⟩).toNat
  if p = 0 then sign ++ toString n
  else sign ++ toString (n / 10 ^ p) ++ "." ++ padZeros (n % 10 ^ p) p

/-- Python `int(x)` on a number: truncation toward zero. -/
def pyTruncInt (a : Frac) : Int :=
  if a.num < 0 then -(Frac.floor ⟨-a.num, a.den⟩) else a.floor

/-- Fractional decimal digits of the fraction r / den in [0, 1), by repeated
multiplication by 10; the fuel bound exceeds the longest decimal expansion of
any IEEE double (under 1100 digits), and non-terminating expansions cannot
arise from doubles. -/
def fracDigits : Nat → Int → Int → String
  | 0, _, _ => ""
  | fuel + 1, r, den =>
      if r = 0 then ""
      else
        let r10 := r * 10
        let d := r10.ediv den
        toString d.toNat ++ fracDigits fuel (r10 - d * den) den

/-- Python `str` / f-string interpolation of a float in fixed notation:
shortest decimal form with at least one fractional digit.  Faithful for
doubles of decimal-exact magnitude outside the exponent-notation range. -/
def floatStr (a : Frac) : String :=
  let sign := if a.num < 0 then "-" else ""
  let m : Frac := ⟨(a.num.natAbs : Int), a.den⟩
  let ip := m.floor
  let ds := fracDigits 1100 (m.num - ip * (m.den : Int)) (m.den : Int)
  sign ++ toString ip.toNat ++ "." ++ (if ds = "" then "0" else ds)

/-- Python `str` / f-string interpolation of a JSON scalar.  Containers would
print their repr (which uses quote characters) - that rendering is not
modelled and no theorem below exercises it. -/
def pyStr : Json → String
  | .int n => toString n
  | .float q => floatStr q
  | .str s => s
  | .bool b => if b then "True" else "False"
  | .null => "None"
  | .obj _ => ""
  | .arr _ => ""

/-- Python `s.title()` for ASCII text: an alphabetic character is uppercased
after a non-alphabetic one and lowercased otherwise. -/
def pyTitle (s : String) : String :=
  (s.toList.foldl
    (fun acc c =>
      let out := if acc.2 then c.toLower else c.toUpper
      (acc.1 ++ [out], c.isAlpha))
    (([] : List Char), false)).1.foldl (fun t c => t.push c) ""

/-- ANSI reset code (main.py line 13). -/
def RESET : String := "\x1b[0m"

/-- ANSI bold code. -/
def BOLD : String := "\x1b[1m"

/-- ANSI red. -/
def RED : String := "\x1b[31m"

/-- ANSI green. -/
def GREEN : String := "\x1b[32m"

/-- ANSI yellow. -/
def YELLOW : String := "\x1b[33m"

/-- ANSI blue. -/
def BLUE : String := "\x1b[34m"

/-- ANSI magenta. -/
def MAGENTA : String := "\x1b[35m"

/-- ANSI cyan. -/
def CYAN : String := "\x1b[36m"

/-- ANSI bright black. -/
def BRIGHT_BLACK : String := "\x1b[90m"

/-- ANSI bright white. -/
def BRIGHT_WHITE : String := "\x1b[97m"

/-- The guarded extraction `data.get(key) if data else None` of
format_traffic_usage (main.py lines 373-374): None when data is falsy, the
dict lookup when data is a truthy dict, a raised AttributeError (modelled as
`none`) when data is truthy but not a dict. -/
def extractMaybe (data : Json) (k : String) : Option Json :=
  if jsonTruthy data then
    match data with
    | .obj kvs => some (jGetNull kvs k)
    | _ => none
  else some .null

/-- The usage extraction of format_traffic_usage (main.py lines 379-389):
total / in / out with default 0, each coerced to 0 unless int/float, and all
zero unless the usage value is a truthy dict. -/
def usageTotals (usage : Json) : Frac × Frac × Frac :=
  match usage with
  | .obj kvs =>
      if kvs.isEmpty then (.ofInt 0, .ofInt 0, .ofInt 0)
      else
        let t := jGetD kvs "total" (.int 0)
        let i := jGetD kvs "in" (.int 0)
        let o := jGetD kvs "out" (.int 0)
        (if jsonIsNum t then jsonNumVal t else .ofInt 0,
          if jsonIsNum i then jsonNumVal i else .ofInt 0,
          if jsonIsNum o then jsonNumVal o else .ofInt 0)
  | _ => (.ofInt 0, .ofInt 0, .ofInt 0)

/-- The limit section of format_traffic_usage (main.py lines 398-435): the
lines printed after the LIMITS & STATUS header.  `none` models the
AttributeError Python raises when a truthy non-string vm_status is
`.title()`d; every other path prints normally. -/
def limitLines (limit : Json) (total : Frac) : Option (List String) :=
  match limit with
  | .obj kvs =>
      if kvs.isEmpty then
        some ["  " ++ BRIGHT_BLACK ++ "No limit information available" ++ RESET]
      else
        let monthlyRaw := jGetD kvs "monthly" (.int 0)
        let remainingRaw := jGetD kvs "remaining" (.int 0)
        let vm_status := jGetD kvs "vm_status" (.str "unknown")
        let additional := jGetNull kvs "additional"
        let monthly := if jsonIsNum monthlyRaw then monthlyRaw else .int 0
        let remaining : Frac :=
          if jsonIsNum remainingRaw then jsonNumVal remainingRaw else .ofInt 0
        let l6 := "  " ++ BLUE ++ "Monthly Limit:" ++ RESET ++ " " ++
          BRIGHT_WHITE ++ pyStr monthly ++ " GB" ++ RESET
        let l7 := "  " ++ BLUE ++ "Remaining:" ++ RESET ++ " " ++ GREEN ++
          fmtFixed remaining 2 ++ " GB" ++ RESET
        let l8 :=
          match additional with
          | .null => "  " ++ BLUE ++ "Additional:" ++ RESET ++ " " ++
              BRIGHT_BLACK ++ "None" ++ RESET
          | a => "  " ++ BLUE ++ "Additional:" ++ RESET ++ " " ++ CYAN ++
              pyStr a ++ " GB" ++ RESET
        let vmLines : Option (List String) :=
          if jsonTruthy vm_status then
            match vm_status with
            | .str s =>
                let c := if s == "normal" then GREEN
                  else if s == "limited" then RED else YELLOW
                some ["  " ++ BLUE ++ "VM Status:" ++ RESET ++ " " ++ c ++
                  pyTitle s ++ RESET]
            | _ => none
          else some []
        let monthlyQ := jsonNumVal monthly
        let pctLines : List String :=
          if Frac.blt (.ofInt 0) monthlyQ then
            let pct := Frac.mul (Frac.div total monthlyQ) (.ofInt 100)
            let pc := if Frac.blt pct (.ofInt 70) then GREEN
              else if Frac.blt pct (.ofInt 90) then YELLOW else RED
            let filled := pyTruncInt (Frac.div (Frac.mul (.ofInt 30) total)
              monthlyQ)
            let clamped := max 0 (min filled 30)
            let bar := String.mk (List.replicate clamped.toNat '█' ++
              List.replicate (30 - clamped.toNat) '░')
            ["  " ++ BLUE ++ "Usage Percentage:" ++ RESET ++ " " ++ pc ++
                fmtFixed pct 1 ++ "%" ++ RESET,
              "  " ++ BLUE ++ "Progress:" ++ RESET ++ " " ++ pc ++ "[" ++
                bar ++ "]" ++ RESET]
          else []
        vmLines.map (fun vl => [l6, l7, l8] ++ vl ++ pctLines)
  | _ =>
      some ["  " ++ BRIGHT_BLACK ++ "No limit information available" ++ RESET]

/-- main.py `format_traffic_usage` (lines 370-435): the sequence of printed
strings (one entry per print call, embedded newlines kept), fed with the
traffic response's data object and its month field as `format_traffic` does
(lines 358-364).  `none` models a raised exception on malformed input. -/
def format_traffic_usage (data month : Json) : Option (List String) := do
  let usage ← extractMaybe data "usage"
  let limit ← extractMaybe data "limit"
  let (total, tin, tout) := usageTotals usage
  let l1 := "\n" ++ BOLD ++ MAGENTA ++ "=== TRAFFIC USAGE FOR " ++
    pyStr month ++ " ===" ++ RESET
  let l2 := "  " ++ BLUE ++ "Total Usage:" ++ RESET ++ " " ++ CYAN ++
    fmtFixed total 2 ++ " GB" ++ RESET
  let l3 := "  " ++ BLUE ++ "Incoming:" ++ RESET ++ " " ++ GREEN ++
    fmtFixed tin 2 ++ " GB" ++ RESET
  let l4 := "  " ++ BLUE ++ "Outgoing:" ++ RESET ++ " " ++ YELLOW ++
    fmtFixed tout 2 ++ " GB" ++ RESET
  let l5 := "\n" ++ BOLD ++ CYAN ++ "=== LIMITS & STATUS ===" ++ RESET
  let rest ← limitLines limit total
  pure ([l1, l2, l3, l4, l5] ++ rest)

/-- The data object of the canned traffic response of the specification:
usage total 12.5 / in 5 / out 7.5, limit monthly 1000 / remaining 987.5 /
vm_status normal.  JSON 12.5, 7.5 and 987.5 parse as floats, 5 and 1000 as
ints. -/
def cannedTrafficData : Json :=
  .obj [("usage", .obj [("total", .float ⟨25, 2⟩), ("in", .int 5),
      ("out", .float ⟨15, 2⟩)]),
    ("limit", .obj [("monthly", .int 1000), ("remaining", .float ⟨1975, 2⟩),
      ("vm_status", .str "normal")])]

/-- Naive substring test on strings, used to state what the formatter output
does and does not contain. -/
def strHasSub (hay needle : String) : Bool :=
  go needle.toList hay.toList
where
  startsWith : List Char → List Char → Bool
    | [], _ => true
    | _ :: _, [] => false
    | a :: as, b :: bs => a == b && startsWith as bs
  go (n : List Char) : List Char → Bool
    | [] => n.isEmpty
    | b :: bs => startsWith n (b :: bs) || go n bs

/-- The KVM sub-list the KVM resolver scans (`services.get('KVM', [])`). -/
def kvmList (svcs : Services) : List SvcEntry := dictGetD svcs "KVM" []

/-- The DOMAIN sub-list the domain resolver scans
(`services.get('DOMAIN', [])`). -/
def domainList (svcs : Services) : List SvcEntry := dictGetD svcs "DOMAIN" []

lemma find_kvm_server_ok (svcs : Services) (x : String) :
    find_kvm_server (.ok svcs) x =
      match (kvmList svcs).find? (resolverMatch x) with
      | some e => some ⟨e.name, e.internal_id, "KVM"⟩
      | none => none := rfl

lemma find_domain_ok (svcs : Services) (x : String) :
    find_domain (.ok svcs) x =
      match (domainList svcs).find? (resolverMatch x) with
      | some e => some ⟨e.name, e.internal_id, "DOMAIN"⟩
      | none => none := rfl

lemma scan_none_iff (l : List SvcEntry) (x : String) (ty : String) :
    ((match l.find? (resolverMatch x) with
      | some e => some (⟨e.name, e.internal_id, ty⟩ : Service)
      | none => none) = none) ↔
      ∀ e ∈ l, resolverMatch x e = false := by
  cases h : l.find? (resolverMatch x) with
  | none =>
      simp only [h]
      rw [List.find?_eq_none] at h
      simpa using h
  | some e =>
      simp only [h]
      constructor
      · intro hc; exact absurd hc (by simp)
      · intro hall
        have hmem := List.mem_of_find?_eq_some h
        have := List.find?_some h
        rw [hall e hmem] at this
        cases this

lemma scan_some_first (l : List SvcEntry) (x : String) (ty : String)
    (s : Service)
    (h : (match l.find? (resolverMatch x) with
      | some e => some (⟨e.name, e.internal_id, ty⟩ : Service)
      | none => none) = some s) :
    ∃ i, ∃ hi : i < l.length,
      resolverMatch x (l.get ⟨i, hi⟩) = true ∧
      s = ⟨(l.get ⟨i, hi⟩).name, (l.get ⟨i, hi⟩).internal_id, ty⟩ ∧
      ∀ j, ∀ hj : j < l.length, j < i →
        resolverMatch x (l.get ⟨j, hj⟩) = false := by
  cases hfind : l.find? (resolverMatch x) with
  | none => rw [hfind] at h; cases h
  | some e =>
      rw [hfind] at h
      obtain rfl : (⟨e.name, e.internal_id, ty⟩ : Service) = s := by injection h
      obtain ⟨i, hi, hget, hpa, hprev⟩ := findFirstIndex _ _ _ hfind
      exact ⟨i, hi, by rw [hget]; exact hpa, by rw [hget], hprev⟩

/-- Claim C1: for every fetched service list and every identifier x, the
resolvers (find_kvm_server for KVM, find_domain for DOMAIN) return None
exactly when no record of the scanned sub-list has name or internal_id equal
to x, and a returned record is the first match of the scanned sub-list in
scan order (every earlier record fails the match). -/
theorem C1_resolver_first_match (svcs : Services) (x : String) :
    ((find_kvm_server (.ok svcs) x = none) ↔
      ∀ e ∈ kvmList svcs, resolverMatch x e = false) ∧
    (∀ s, find_kvm_server (.ok svcs) x = some s →
      ∃ i, ∃ hi : i < (kvmList svcs).length,
        resolverMatch x ((kvmList svcs).get ⟨i, hi⟩) = true ∧
        s = ⟨((kvmList svcs).get ⟨i, hi⟩).name,
          ((kvmList svcs).get ⟨i, hi⟩).internal_id, "KVM"⟩ ∧
        ∀ j, ∀ hj : j < (kvmList svcs).length, j < i →
          resolverMatch x ((kvmList svcs).get ⟨j, hj⟩) = false) ∧
    ((find_domain (.ok svcs) x = none) ↔
      ∀ e ∈ domainList svcs, resolverMatch x e = false) ∧
    (∀ s, find_domain (.ok svcs) x = some s →
      ∃ i, ∃ hi : i < (domainList svcs).length,
        resolverMatch x ((domainList svcs).get ⟨i, hi⟩) = true ∧
        s = ⟨((domainList svcs).get ⟨i, hi⟩).name,
          ((domainList svcs).get ⟨i, hi⟩).internal_id, "DOMAIN"⟩ ∧
        ∀ j, ∀ hj : j < (domainList svcs).length, j < i →
          resolverMatch x ((domainList svcs).get ⟨j, hj⟩) = false) := by
  refine ⟨?_, ?_, ?_, ?_⟩
  · rw [find_kvm_server_ok]; exact scan_none_iff _ _ _
  · intro s hs; rw [find_kvm_server_ok] at hs; exact scan_some_first _ _ _ _ hs
  · rw [find_domain_ok]; exact scan_none_iff _ _ _
  · intro s hs; rw [find_domain_ok] at hs; exact scan_some_first _ _ _ _ hs

/-- Witness for C1 at a concrete service list: the identifier "nope" resolves
to none (no KVM record matches), and resolving "b" yields the first matching
record of the KVM sub-list. -/
theorem C1_resolver_first_match_witness :
    (find_kvm_server
        (.ok [("KVM", [⟨"a", "k1"⟩, ⟨"b", "k2"⟩])]) "nope" = none) ∧
    (∃ i, ∃ hi : i < (kvmList [("KVM", [⟨"a", "k1"⟩, ⟨"b", "k2"⟩])]).length,
      resolverMatch "b"
        ((kvmList [("KVM", [⟨"a", "k1"⟩, ⟨"b", "k2"⟩])]).get ⟨i, hi⟩) = true ∧
      (⟨"b", "k2", "KVM"⟩ : Service) =
        ⟨((kvmList [("KVM", [⟨"a", "k1"⟩, ⟨"b", "k2"⟩])]).get ⟨i, hi⟩).name,
          ((kvmList [("KVM", [⟨"a", "k1"⟩, ⟨"b", "k2"⟩])]).get
            ⟨i, hi⟩).internal_id, "KVM"⟩ ∧
      ∀ j, ∀ hj : j < (kvmList [("KVM", [⟨"a", "k1"⟩, ⟨"b", "k2"⟩])]).length,
        j < i →
        resolverMatch "b"
          ((kvmList [("KVM", [⟨"a", "k1"⟩, ⟨"b", "k2"⟩])]).get ⟨j, hj⟩) =
          false) :=
  ⟨(C1_resolver_first_match [("KVM", [⟨"a", "k1"⟩, ⟨"b", "k2"⟩])] "nope").1.mpr
      (by decide),
    (C1_resolver_first_match [("KVM", [⟨"a", "k1"⟩, ⟨"b", "k2"⟩])] "b").2.1
      ⟨"b", "k2", "KVM"⟩ (by rfl)⟩

/-- Claim C2: a KVM-scoped resolution can only return a record drawn from the
KVM sub-list, tagged with type KVM - never a WEBSPACE or DOMAIN record, even
when a same-named record exists under another type. -/
theorem C2_kvm_scope (fetch : HttpResult) (x : String) (s : Service)
    (h : find_kvm_server fetch x = some s) :
    s.type = "KVM" ∧
    ∃ svcs, fetch = .ok svcs ∧
      ∃ e ∈ kvmList svcs, s.name = e.name ∧ s.internal_id = e.internal_id ∧
        resolverMatch x e = true := by
  cases fetch with
  | httpError code => cases h
  | exn => cases h
  | ok svcs =>
      rw [find_kvm_server_ok] at h
      cases hfind : (kvmList svcs).find? (resolverMatch x) with
      | none => rw [hfind] at h; cases h
      | some e =>
          rw [hfind] at h
          obtain rfl : (⟨e.name, e.internal_id, "KVM"⟩ : Service) = s := by
            injection h
          exact ⟨rfl, svcs, rfl, e, List.mem_of_find?_eq_some hfind, rfl, rfl,
            List.find?_some hfind⟩

/-- Witness for C2: a service list holding a WEBSPACE record and a KVM record
that share the name "a"; the KVM-scoped resolver returns the KVM one. -/
theorem C2_kvm_scope_witness :
    (Service.mk "a" "k1" "KVM").type = "KVM" ∧
    ∃ svcs, (HttpResult.ok [("WEBSPACE", [⟨"a", "w1"⟩]),
        ("KVM", [⟨"a", "k1"⟩])]) = .ok svcs ∧
      ∃ e ∈ kvmList svcs, (Service.mk "a" "k1" "KVM").name = e.name ∧
        (Service.mk "a" "k1" "KVM").internal_id = e.internal_id ∧
        resolverMatch "a" e = true :=
  C2_kvm_scope
    (.ok [("WEBSPACE", [⟨"a", "w1"⟩]), ("KVM", [⟨"a", "k1"⟩])]) "a"
    ⟨"a", "k1", "KVM"⟩ (by rfl)

lemma dispatch_start (args : Args) (fetch : HttpResult)
    (h : truthy args.start = true) :
    get_api_key_dispatch args fetch =
      (control_kvm_server fetch (oget args.start) "start", .exited 0) := by
  unfold get_api_key_dispatch dispatchPower
  simp [h]

lemma dispatch_stop (args : Args) (fetch : HttpResult)
    (h1 : truthy args.start = false) (h2 : truthy args.stop = true) :
    get_api_key_dispatch args fetch =
      (control_kvm_server fetch (oget args.stop) "stop", .exited 0) := by
  unfold get_api_key_dispatch dispatchPower
  simp [h1, h2]

lemma dispatch_restart (args : Args) (fetch : HttpResult)
    (h1 : truthy args.start = false) (h2 : truthy args.stop = false)
    (h3 : truthy args.restart = true) :
    get_api_key_dispatch args fetch =
      (control_kvm_server fetch (oget args.restart) "restart", .exited 0) := by
  unfold get_api_key_dispatch dispatchPower
  simp [h1, h2, h3]

/-- The argparse namespace produced by an invocation whose only flag is
`-S identifier`. -/
def startArgs (ident : String) : Args :=
  ⟨none, some ident, none, none, none, none, none, none, none, false, false,
    none, none, none, none, none⟩

/-- Claim C3: with a service list whose KVM sub-list is exactly the one entry
named web01 with internal_id abc123, the invocation `-S web01` issues the
services fetch followed by exactly one POST, to
https://manage.24fire.de/api/kvm/abc123/power with form body mode=start, and
exits 0. -/
theorem C3_start_issues_one_power_post (svcs : Services)
    (h : kvmList svcs = [⟨"web01", "abc123"⟩]) :
    get_api_key_dispatch (startArgs "web01") (.ok svcs) =
      ([servicesRequest,
        ⟨.post, "https://manage.24fire.de/api/kvm/abc123/power",
          [("mode", "start")]⟩], .exited 0) ∧
    ((get_api_key_dispatch (startArgs "web01") (.ok svcs)).1.countP
      (fun r => r.method == .post)) = 1 := by
  have hfind : find_kvm_server (.ok svcs) "web01" =
      some ⟨"web01", "abc123", "KVM"⟩ := by
    rw [find_kvm_server_ok, h]
    rfl
  have hc : control_kvm_server (.ok svcs) (oget (some "web01")) "start" =
      [servicesRequest,
        ⟨.post, "https://manage.24fire.de/api/kvm/abc123/power",
          [("mode", "start")]⟩] := by
    unfold control_kvm_server
    rw [show oget (some "web01") = "web01" from rfl, hfind]
    rfl
  have hd := dispatch_start (startArgs "web01") (.ok svcs) rfl
  rw [show (startArgs "web01").start = some "web01" from rfl] at hd
  refine ⟨?_, ?_⟩
  · rw [hd, hc]
  · rw [hd]
    show (control_kvm_server (.ok svcs) (oget (some "web01"))
      "start").countP (fun r => r.method == .post) = 1
    rw [hc]
    rfl

/-- Witness for C3 at the concrete one-entry service list. -/
theorem C3_start_issues_one_power_post_witness :
    get_api_key_dispatch (startArgs "web01")
        (.ok [("KVM", [⟨"web01", "abc123"⟩])]) =
      ([servicesRequest,
        ⟨.post, "https://manage.24fire.de/api/kvm/abc123/power",
          [("mode", "start")]⟩], .exited 0) :=
  (C3_start_issues_one_power_post [("KVM", [⟨"web01", "abc123"⟩])] rfl).1

/-- An argparse namespace with both power flags supplied:
`-S "" -s srv1` (start carries the empty string, stop a server name). -/
def bothPowerArgs : Args :=
  ⟨none, some "", some "srv1", none, none, none, none, none, none, false,
    false, none, none, none, none, none⟩

/-- Counterexample to claim C9 as stated: with both --start and --stop
supplied (start with the empty-string value), the dispatcher performs the
stop action, not the start action - precedence is decided by Python
truthiness, and an empty-string value is skipped as if absent. -/
theorem C9_counterexample :
    bothPowerArgs.start.isSome = true ∧ bothPowerArgs.stop.isSome = true ∧
    get_api_key_dispatch bothPowerArgs
        (.ok [("KVM", [⟨"srv1", "k9"⟩])]) =
      ([servicesRequest, powerRequest "k9" "stop"], .exited 0) :=
  ⟨rfl, rfl, rfl⟩

/-- Claim C9 amended: among the power flags carrying non-empty (truthy)
values, exactly one power action is performed, with precedence start over
stop over restart, the emitted trace is exactly that of the one
control_kvm_server call, and the process exits 0 without dispatching any
other action; a flag supplied with the empty string is treated as absent. -/
theorem C9_power_precedence (args : Args) (fetch : HttpResult) :
    (truthy args.start = true →
      get_api_key_dispatch args fetch =
        (control_kvm_server fetch (oget args.start) "start", .exited 0)) ∧
    (truthy args.start = false → truthy args.stop = true →
      get_api_key_dispatch args fetch =
        (control_kvm_server fetch (oget args.stop) "stop", .exited 0)) ∧
    (truthy args.start = false → truthy args.stop = false →
      truthy args.restart = true →
      get_api_key_dispatch args fetch =
        (control_kvm_server fetch (oget args.restart) "restart", .exited 0)) :=
  ⟨fun h => dispatch_start args fetch h,
    fun h1 h2 => dispatch_stop args fetch h1 h2,
    fun h1 h2 h3 => dispatch_restart args fetch h1 h2 h3⟩

/-- Witness for C9 at a concrete invocation `-s srv1` (stop truthy, start
absent). -/
theorem C9_power_precedence_witness :
    get_api_key_dispatch
        ⟨none, none, some "srv1", none, none, none, none, none, none, false,
          false, none, none, none, none, none⟩
        (.ok [("KVM", [⟨"srv1", "k9"⟩])]) =
      (control_kvm_server (.ok [("KVM", [⟨"srv1", "k9"⟩])])
        (oget (some "srv1")) "stop", .exited 0) :=
  (C9_power_precedence
      ⟨none, none, some "srv1", none, none, none, none, none, none, false,
        false, none, none, none, none, none⟩
      (.ok [("KVM", [⟨"srv1", "k9"⟩])])).2.1 rfl rfl

/-- Counterexample to claim C5 as stated: invoking `-S ghost` against a
service list with no matching KVM entry is a fetch/resolution failure, yet
the process exits 0 (the handler prints a not-found message and returns, and
the power branch then calls sys.exit(0)). -/
theorem C5_counterexample :
    find_kvm_server (.ok [("KVM", [])]) "ghost" = none ∧
    get_api_key_dispatch (startArgs "ghost") (.ok [("KVM", [])]) =
      ([servicesRequest], .exited 0) :=
  ⟨rfl, rfl⟩

/-- Claim C5 amended: the exit code is 0 on handled success paths and also on
action paths whose resolution or upstream call fails (the failure is only
printed); it is 1 on argument-validation failures (missing --target, missing
--backup-id for restore/delete) and on the interactive-mode service-list
fetch failure. -/
theorem C5_exit_codes (args : Args) (fetch : HttpResult) :
    ((truthy args.start || truthy args.stop || truthy args.restart) = true →
      (get_api_key_dispatch args fetch).2 = .exited 0) ∧
    (truthy args.start = false → truthy args.stop = false →
      truthy args.restart = false → truthy args.target = false →
      (truthy args.backup || truthy args.traffic || truthy args.monitoring ||
        args.install || args.dns.isSome || args.ddos) = true →
      get_api_key_dispatch args fetch = ([], .exited 1)) ∧
    (truthy args.start = false → truthy args.stop = false →
      truthy args.restart = false → truthy args.backup = true →
      truthy args.target = true → truthy args.backup_id = false →
      (args.backup = some "restore" ∨ args.backup = some "delete") →
      get_api_key_dispatch args fetch = ([], .exited 1)) ∧
    (truthy args.start = false → truthy args.stop = false →
      truthy args.restart = false → truthy args.backup = true →
      truthy args.target = true →
      ((args.backup == some "restore" || args.backup == some "delete") &&
        !truthy args.backup_id) = false →
      (get_api_key_dispatch args fetch).2 = .exited 0) ∧
    (∀ code, request_data (.httpError code) = ([servicesRequest], .exitOne)) := by
  refine ⟨?_, ?_, ?_, ?_, fun _ => rfl⟩
  · intro h
    unfold get_api_key_dispatch dispatchPower
    rw [h]
    simp
  · intro h1 h2 h3 ht hdisj
    unfold get_api_key_dispatch
    cases hb : truthy args.backup <;> cases htr : truthy args.traffic <;>
      cases hm : truthy args.monitoring <;> cases hi : args.install <;>
      cases hd : args.dns.isSome <;> cases hdd : args.ddos <;>
      simp_all [dispatchBackup, dispatchTraffic, dispatchMonitoring,
        dispatchInstall, dispatchDns, dispatchDdos]
  · intro h1 h2 h3 hb ht hbid hrd
    have hcond : ((args.backup == some "restore" ||
        args.backup == some "delete") && !truthy args.backup_id) = true := by
      rcases hrd with h | h <;> rw [h, hbid] <;> decide
    unfold get_api_key_dispatch dispatchBackup
    simp [h1, h2, h3, hb, ht, hcond]
  · intro h1 h2 h3 hb ht hbidOK
    unfold get_api_key_dispatch dispatchBackup
    simp [h1, h2, h3, hb, ht, hbidOK]

/-- Witness for C5 at concrete invocations: a power invocation exits 0, a
backup invocation without --target exits 1, a backup restore invocation
without --backup-id exits 1, a validated backup list invocation exits 0, and
an interactive fetch failure exits 1. -/
theorem C5_exit_codes_witness :
    ((get_api_key_dispatch (startArgs "ghost2") .exn).2 = .exited 0) ∧
    (get_api_key_dispatch
        ⟨none, none, none, none, some "list", none, none, none, none, false,
          false, none, none, none, none, none⟩ .exn = ([], .exited 1)) ∧
    (get_api_key_dispatch
        ⟨none, none, none, none, some "restore", some "srv", none, none,
          none, false, false, none, none, none, none, none⟩ .exn =
      ([], .exited 1)) ∧
    ((get_api_key_dispatch
        ⟨none, none, none, none, some "list", some "srv", none, none, none,
          false, false, none, none, none, none, none⟩ .exn).2 = .exited 0) ∧
    request_data (.httpError 403) = ([servicesRequest], .exitOne) :=
  ⟨((C5_exit_codes (startArgs "ghost2") .exn).1 rfl),
    ((C5_exit_codes _ .exn).2.1 rfl rfl rfl rfl rfl),
    ((C5_exit_codes _ .exn).2.2.1 rfl rfl rfl rfl rfl rfl (Or.inl rfl)),
    ((C5_exit_codes _ .exn).2.2.2.1 rfl rfl rfl rfl rfl rfl),
    ((C5_exit_codes noArgs .exn).2.2.2.2 403)⟩

lemma dispatchPower_httpError_trace (args : Args) (code : Nat) :
    (dispatchPower args (.httpError code)).1 = [] ∨
      (dispatchPower args (.httpError code)).1 = [servicesRequest] := by
  unfold dispatchPower
  split_ifs <;> first | (left; rfl) | (right; rfl)

lemma dispatchBackup_httpError_trace (args : Args) (code : Nat) :
    (dispatchBackup args (.httpError code)).1 = [] ∨
      (dispatchBackup args (.httpError code)).1 = [servicesRequest] := by
  unfold dispatchBackup
  split_ifs <;> first | (left; rfl) | (right; rfl)

lemma dispatchTraffic_httpError_trace (args : Args) (code : Nat) :
    (dispatchTraffic args (.httpError code)).1 = [] ∨
      (dispatchTraffic args (.httpError code)).1 = [servicesRequest] := by
  unfold dispatchTraffic
  split_ifs <;> first | (left; rfl) | (right; rfl)

lemma dispatchMonitoring_httpError_trace (args : Args) (code : Nat) :
    (dispatchMonitoring args (.httpError code)).1 = [] ∨
      (dispatchMonitoring args (.httpError code)).1 = [servicesRequest] := by
  unfold dispatchMonitoring
  split_ifs <;> first | (left; rfl) | (right; rfl)

lemma dispatchInstall_httpError_trace (args : Args) (code : Nat) :
    (dispatchInstall args (.httpError code)).1 = [] ∨
      (dispatchInstall args (.httpError code)).1 = [servicesRequest] := by
  unfold dispatchInstall
  split_ifs <;> first | (left; rfl) | (right; rfl)

lemma dispatchDns_httpError_trace (args : Args) (code : Nat) :
    (dispatchDns args (.httpError code)).1 = [] ∨
      (dispatchDns args (.httpError code)).1 = [servicesRequest] := by
  unfold dispatchDns
  split_ifs <;> first
    | (split <;> first | (left; rfl) | (right; rfl))
    | (left; rfl)
    | (right; rfl)

lemma dispatchDdos_httpError_trace (args : Args) (code : Nat) :
    (dispatchDdos args (.httpError code)).1 = [] ∨
      (dispatchDdos args (.httpError code)).1 = [servicesRequest] := by
  unfold dispatchDdos
  split_ifs <;> first | (left; rfl) | (right; rfl)

/-- Claim C8: when the /account/services fetch returns a non-200 status, no
subsequent endpoint call is ever issued: every flag path emits at most the
services request itself (the resolvers return None and every handler stops),
and the interactive path terminates with exit 1 right after the fetch. -/
theorem C8_fetch_failure_no_followup (args : Args) (code : Nat) :
    ((get_api_key_dispatch args (.httpError code)).1 = [] ∨
      (get_api_key_dispatch args (.httpError code)).1 = [servicesRequest]) ∧
    (∀ r ∈ (get_api_key_dispatch args (.httpError code)).1,
      r = servicesRequest) ∧
    request_data (.httpError code) = ([servicesRequest], .exitOne) := by
  have h1 : (get_api_key_dispatch args (.httpError code)).1 = [] ∨
      (get_api_key_dispatch args (.httpError code)).1 = [servicesRequest] := by
    unfold get_api_key_dispatch
    split_ifs <;> first
      | exact dispatchPower_httpError_trace args code
      | exact dispatchBackup_httpError_trace args code
      | exact dispatchTraffic_httpError_trace args code
      | exact dispatchMonitoring_httpError_trace args code
      | exact dispatchInstall_httpError_trace args code
      | exact dispatchDns_httpError_trace args code
      | exact dispatchDdos_httpError_trace args code
      | (left; rfl)
  refine ⟨h1, ?_, rfl⟩
  intro r hr
  rcases h1 with h | h <;> rw [h] at hr <;> simp at hr
  exact hr

/-- Witness for C8 at a concrete invocation: `-S web01` against a 500
response issues only the services request. -/
theorem C8_fetch_failure_no_followup_witness :
    ((get_api_key_dispatch (startArgs "web01") (.httpError 500)).1 = [] ∨
      (get_api_key_dispatch (startArgs "web01") (.httpError 500)).1 =
        [servicesRequest]) ∧
    (∀ r ∈ (get_api_key_dispatch (startArgs "web01") (.httpError 500)).1,
      r = servicesRequest) ∧
    request_data (.httpError 500) = ([servicesRequest], .exitOne) :=
  C8_fetch_failure_no_followup (startArgs "web01") 500

/-- Counterexample to claim C7 as stated: with a target that does not resolve
to a KVM server, install_automations prints the not-found message and returns
without any not-finished message (the dispatcher then exits 0), so the
invocation does not always end with the "not finished" message. -/
theorem C7_counterexample :
    install_automations (.ok [("KVM", [])]) "srv" =
      ([servicesRequest], .notFoundMsg) ∧
    InstallOutcome.notFoundMsg ≠ InstallOutcome.notFinishedExit :=
  ⟨rfl, by decide⟩

/-- Claim C7 amended: an invocation with the install flag and a truthy target
exits 0 and never performs installation work; it prints the not-finished
message exactly when the target resolves to a KVM server, and a not-found
message (with no mention of the unfinished feature) when resolution fails. -/
theorem C7_install_unfinished (fetch : HttpResult) (target : String)
    (args : Args) :
    ((install_automations fetch target).2 ≠ .installWork) ∧
    (∀ s, find_kvm_server fetch target = some s →
      install_automations fetch target =
        ([servicesRequest], .notFinishedExit)) ∧
    (find_kvm_server fetch target = none →
      install_automations fetch target = ([servicesRequest], .notFoundMsg)) ∧
    (truthy args.start = false → truthy args.stop = false →
      truthy args.restart = false → truthy args.backup = false →
      truthy args.traffic = false → truthy args.monitoring = false →
      args.install = true → truthy args.target = true →
      get_api_key_dispatch args fetch =
        ((install_automations fetch (oget args.target)).1, .exited 0)) := by
  refine ⟨?_, ?_, ?_, ?_⟩
  · unfold install_automations
    cases h : find_kvm_server fetch target <;> simp [h]
  · intro s hs
    unfold install_automations
    rw [hs]
    rfl
  · intro hn
    unfold install_automations
    rw [hn]
  · intro h1 h2 h3 h4 h5 h6 h7 h8
    unfold get_api_key_dispatch dispatchInstall
    simp [h1, h2, h3, h4, h5, h6, h7, h8]

/-- Witness for C7 at concrete inputs: a resolving target yields the
not-finished exit, and the dispatcher runs the install branch for
`-i -t srv1`. -/
theorem C7_install_unfinished_witness :
    (install_automations (.ok [("KVM", [⟨"srv1", "k1"⟩])]) "srv1" =
      ([servicesRequest], .notFinishedExit)) ∧
    (get_api_key_dispatch
        ⟨none, none, none, none, none, some "srv1", none, none, none, false,
          true, none, none, none, none, none⟩
        (.ok [("KVM", [⟨"srv1", "k1"⟩])]) =
      ((install_automations (.ok [("KVM", [⟨"srv1", "k1"⟩])])
        (oget (some "srv1"))).1, .exited 0)) :=
  ⟨(C7_install_unfinished (.ok [("KVM", [⟨"srv1", "k1"⟩])]) "srv1" noArgs).2.1
      ⟨"srv1", "k1", "KVM"⟩ rfl,
    (C7_install_unfinished (.ok [("KVM", [⟨"srv1", "k1"⟩])]) "srv1"
        ⟨none, none, none, none, none, some "srv1", none, none, none, false,
          true, none, none, none, none, none⟩).2.2.2
      rfl rfl rfl rfl rfl rfl rfl rfl⟩

/-- The argparse namespace of an invocation `-dns add -t TARGET --add VALUE`. -/
def dnsAddArgs (t a : String) : Args :=
  ⟨none, none, none, none, none, some t, none, none, none, false, false,
    none, some "add", none, some a, none⟩

/-- Counterexample to claim C4 as stated: the --add value
A,www,1.2.3.4,8.8.8.8 consists of four comma-separated fields, yet the dns
add path issues the resolver fetch and the PUT request (everything after the
second comma becomes the data field, because the source splits with
maxsplit 2) and exits 0 - not the claimed no-request non-zero exit. -/
theorem C4_counterexample :
    ((pySplitComma "A,www,1.2.3.4,8.8.8.8").length = 4) ∧
    get_api_key_dispatch (dnsAddArgs "example.com" "A,www,1.2.3.4,8.8.8.8")
        (.ok [("DOMAIN", [⟨"example.com", "dom1"⟩])]) =
      ([servicesRequest,
        ⟨.put, "https://manage.24fire.de/api/domain/dom1/dns/add",
          [("type", "A"), ("name", "www"), ("data", "1.2.3.4,8.8.8.8")]⟩],
        .exited 0) := by
  exact ⟨by decide, by decide⟩

/-- Claim C4 amended: when the --add value yields fewer than 3 fields under
Python's split with maxsplit 2 (equivalently, it contains fewer than two
commas), the dns add path issues no HTTP request and exits 1 after the usage
hint; a value with more than two commas is accepted, the text after the
second comma becoming the data field. -/
theorem C4_dns_add_malformed (t a : String) (fetch : HttpResult)
    (ht : t ≠ "") (ha : (pySplitComma a).length < 3) :
    get_api_key_dispatch (dnsAddArgs t a) fetch = ([], .exited 1) := by
  have hte : t.isEmpty = false := by
    cases hb : t.isEmpty
    · rfl
    · exact absurd ((String.isEmpty_iff t).mp hb) ht
  have hbranch : get_api_key_dispatch (dnsAddArgs t a) fetch =
      dispatchDns (dnsAddArgs t a) fetch := by
    unfold get_api_key_dispatch
    rfl
  rw [hbranch]
  unfold dispatchDns
  rw [show (dnsAddArgs t a).target = some t from rfl,
    show (dnsAddArgs t a).dns = some "add" from rfl,
    show (dnsAddArgs t a).add = some a from rfl,
    show (oget (some t)) = t from rfl]
  rw [show truthy (some t) = !t.isEmpty from rfl, hte]
  simp only [Bool.not_false, Bool.not_true, Bool.false_eq_true, if_false,
    show (oget (some "add") == "remove") = false from rfl,
    show (oget (some "add") == "add") = true from rfl, if_true]
  by_cases hae : a = ""
  · subst hae
    rfl
  · have hane : a.isEmpty = false := by
      cases hb : a.isEmpty
      · rfl
      · exact absurd ((String.isEmpty_iff a).mp hb) hae
    rw [show truthy (some a) = !a.isEmpty from rfl, hane]
    simp only [Bool.not_false, Bool.not_true, Bool.false_eq_true, if_false,
      if_true]
    have hsplit : ∃ l, pySplitComma2 (oget (some a)) = l ∧ l.length < 3 := by
      unfold pySplitComma2
      rcases h : pySplitComma (oget (some a)) with _ | ⟨x, tl⟩
      · exact ⟨_, rfl, by simp⟩
      · cases tl with
        | nil => exact ⟨[x], rfl, by simp⟩
        | cons y tl2 =>
            cases tl2 with
            | nil => exact ⟨[x, y], rfl, by simp⟩
            | cons z rest =>
                rw [show (oget (some a)) = a from rfl] at h
                rw [h] at ha
                simp only [List.length_cons] at ha
                omega
    obtain ⟨l, hl, hlen⟩ := hsplit
    rw [hl]
    rcases l with _ | ⟨a1, _ | ⟨a2, _ | ⟨a3, r⟩⟩⟩
    · rfl
    · rfl
    · rfl
    · simp only [List.length_cons] at hlen
      omega

/-- Witness for C4 at a concrete malformed value with a single comma. -/
theorem C4_dns_add_malformed_witness :
    get_api_key_dispatch (dnsAddArgs "example.com" "A,www") .exn =
      ([], .exited 1) :=
  C4_dns_add_malformed "example.com" "A,www" .exn (by decide) (by decide)

/-- Counterexample to claim C6 as stated: on the canned traffic response the
formatter prints no line containing "1.25%" - the percentage is rendered with
one decimal digit (the source formats it with .1f), so "1.25%" never
appears. -/
theorem C6_counterexample :
    (format_traffic_usage cannedTrafficData (.str "N/A")).isSome = true ∧
    ((format_traffic_usage cannedTrafficData (.str "N/A")).getD []).all
      (fun l => !(strHasSub l "1.25%")) = true := by
  exact ⟨by decide, by decide⟩

/-- Claim C6 amended: on the canned traffic response (fed to the formatter as
its data object with month absent, hence N/A) the traffic-usage formatter
prints the usage percentage 1.25 rounded to one decimal digit, as "1.2%", and
a non-empty progress bar of 30 bar characters (all unfilled, since
int(30 * 12.5 / 1000) = 0). -/
theorem C6_traffic_usage_output :
    format_traffic_usage cannedTrafficData (.str "N/A") =
      some ["\n" ++ BOLD ++ MAGENTA ++ "=== TRAFFIC USAGE FOR N/A ===" ++
          RESET,
        "  " ++ BLUE ++ "Total Usage:" ++ RESET ++ " " ++ CYAN ++
          "12.50 GB" ++ RESET,
        "  " ++ BLUE ++ "Incoming:" ++ RESET ++ " " ++ GREEN ++ "5.00 GB" ++
          RESET,
        "  " ++ BLUE ++ "Outgoing:" ++ RESET ++ " " ++ YELLOW ++ "7.50 GB" ++
          RESET,
        "\n" ++ BOLD ++ CYAN ++ "=== LIMITS & STATUS ===" ++ RESET,
        "  " ++ BLUE ++ "Monthly Limit:" ++ RESET ++ " " ++ BRIGHT_WHITE ++
          "1000 GB" ++ RESET,
        "  " ++ BLUE ++ "Remaining:" ++ RESET ++ " " ++ GREEN ++
          "987.50 GB" ++ RESET,
        "  " ++ BLUE ++ "Additional:" ++ RESET ++ " " ++ BRIGHT_BLACK ++
          "None" ++ RESET,
        "  " ++ BLUE ++ "VM Status:" ++ RESET ++ " " ++ GREEN ++ "Normal" ++
          RESET,
        "  " ++ BLUE ++ "Usage Percentage:" ++ RESET ++ " " ++ GREEN ++
          "1.2%" ++ RESET,
        "  " ++ BLUE ++ "Progress:" ++ RESET ++ " " ++ GREEN ++ "[" ++
          String.mk (List.replicate 30 '░') ++ "]" ++ RESET] ∧
    ((format_traffic_usage cannedTrafficData (.str "N/A")).getD []).any
      (fun l => strHasSub l "1.2%") = true ∧
    ((format_traffic_usage cannedTrafficData (.str "N/A")).getD []).any
      (fun l => strHasSub l "░") = true := by
  exact ⟨by decide, by decide, by decide⟩

/-- The service record extract_services emits for a raw entry under type
key t. -/
def svcOf (t : String) (e : SvcEntry) : Service := ⟨e.name, e.internal_id, t⟩

lemma extract_services_cons (p : String × List SvcEntry) (rest : Services) :
    extract_services (p :: rest) =
      p.2.map (svcOf p.1) ++ extract_services rest := rfl

lemma extract_filter_not_mem (svcs : Services) (t : String)
    (h : ∀ p ∈ svcs, p.1 ≠ t) :
    (extract_services svcs).filter (fun s => s.type == t) = [] := by
  induction svcs with
  | nil => rfl
  | cons p rest ih =>
      rw [extract_services_cons, List.filter_append]
      have h1 : (p.2.map (svcOf p.1)).filter (fun s => s.type == t) = [] := by
        rw [List.filter_eq_nil_iff]
        intro a ha
        obtain ⟨e, _, rfl⟩ := List.mem_map.mp ha
        simpa [svcOf] using h p (List.mem_cons_self p rest)
      rw [h1, ih (fun q hq => h q (List.mem_cons_of_mem _ hq))]
      rfl

lemma extract_filter_eq (svcs : Services)
    (hnd : (svcs.map Prod.fst).Nodup) (t : String) (l : List SvcEntry)
    (hmem : (t, l) ∈ svcs) :
    (extract_services svcs).filter (fun s => s.type == t) =
      l.map (svcOf t) := by
  induction svcs with
  | nil => cases hmem
  | cons p rest ih =>
      rw [List.map_cons, List.nodup_cons] at hnd
      rw [extract_services_cons, List.filter_append]
      rcases List.mem_cons.mp hmem with heq | hmem2
      · obtain rfl : p = (t, l) := heq.symm
        have h1 : (l.map (svcOf t)).filter (fun s => s.type == t) =
            l.map (svcOf t) := by
          rw [List.filter_eq_self]
          intro a ha
          obtain ⟨e, _, rfl⟩ := List.mem_map.mp ha
          simp [svcOf]
        have h2 : (extract_services rest).filter (fun s => s.type == t) =
            [] := by
          refine extract_filter_not_mem rest t (fun q hq hqt => ?_)
          have hmm : t ∈ rest.map Prod.fst := by
            rw [← hqt]
            exact List.mem_map_of_mem Prod.fst hq
          exact hnd.1 hmm
        rw [h1, h2, List.append_nil]
      · have hpt : p.1 ≠ t := by
          intro hpt
          exact hnd.1 (hpt ▸ List.mem_map_of_mem Prod.fst hmem2)
        have h1 : (p.2.map (svcOf p.1)).filter (fun s => s.type == t) =
            [] := by
          rw [List.filter_eq_nil_iff]
          intro a ha
          obtain ⟨e, _, rfl⟩ := List.mem_map.mp ha
          simpa [svcOf] using hpt
        rw [h1, ih hnd.2 hmem2]
        rfl

lemma extract_length (svcs : Services) :
    (extract_services svcs).length =
      (svcs.map (fun p => p.2.length)).sum := by
  induction svcs with
  | nil => rfl
  | cons p rest ih =>
      rw [extract_services_cons, List.length_append, List.length_map, ih]
      simp

/-- Claim C10: in the interactive menu over the list produced by
extract_services, a digit input k with 1 <= k <= n selects exactly the k-th
element of that list (and issues its fetch_infos request); extract_services
emits one record per service, each per-type sub-list appearing in order (its
filter by type equals the sub-list, and the total length is the sum of the
sub-list lengths); any other input - other than the extras entry "0" -
produces only the invalid-selection outcome, with no further request. -/
theorem C10_menu_selection :
    (∀ svcs input k, pyDigitsToNat input = some k → 1 ≤ k →
      k ≤ (extract_services svcs).length →
      ∃ hi : k - 1 < (extract_services svcs).length,
        main_menu_choice (extract_services svcs) input =
          .select ((extract_services svcs).get ⟨k - 1, hi⟩)
            (fetch_infos_req
              ((extract_services svcs).get ⟨k - 1, hi⟩).internal_id
              ((extract_services svcs).get ⟨k - 1, hi⟩).type)) ∧
    (∀ svcs : Services, (svcs.map Prod.fst).Nodup →
      ∀ t l, (t, l) ∈ svcs →
        (extract_services svcs).filter (fun s => s.type == t) =
          l.map (svcOf t)) ∧
    (∀ svcs : Services, (extract_services svcs).length =
      (svcs.map (fun p => p.2.length)).sum) ∧
    (∀ svcs input, input ≠ "0" →
      (∀ k, pyDigitsToNat input = some k →
        k = 0 ∨ (extract_services svcs).length < k) →
      main_menu_choice (extract_services svcs) input = .invalid) := by
  refine ⟨?_, fun svcs hnd t l hmem => extract_filter_eq svcs hnd t l hmem,
    fun svcs => extract_length svcs, ?_⟩
  · intro svcs input k hk hk1 hk2
    have hne : (input == "0") = false := by
      cases hbe : input == "0"
      · rfl
      · obtain rfl : input = "0" := eq_of_beq hbe
        rw [show pyDigitsToNat "0" = some 0 from by decide] at hk
        injection hk with h
        omega
    unfold main_menu_choice
    rw [hne, hk]
    simp only [Bool.false_eq_true, if_false]
    exact ⟨by omega, dif_pos ⟨hk1, hk2⟩⟩
  · intro svcs input hne hout
    have hbe : (input == "0") = false := by
      cases hb : input == "0"
      · rfl
      · exact absurd (eq_of_beq hb) hne
    unfold main_menu_choice
    rw [hbe]
    simp only [Bool.false_eq_true, if_false]
    cases hpd : pyDigitsToNat input with
    | none => rfl
    | some k =>
        rcases hout k hpd with h0 | hgt
        · exact dif_neg (by omega)
        · exact dif_neg (by omega)

/-- Witness for C10 at a concrete two-service list (one KVM, one DOMAIN):
input "2" selects the second record and its domain info request, the filter
characterisation holds for the DOMAIN sub-list, and input "5" is an invalid
selection. -/
theorem C10_menu_selection_witness :
    (∃ hi : 2 - 1 <
        (extract_services
          [("KVM", [⟨"a", "k1"⟩]), ("DOMAIN", [⟨"d", "d1"⟩])]).length,
      main_menu_choice
          (extract_services
            [("KVM", [⟨"a", "k1"⟩]), ("DOMAIN", [⟨"d", "d1"⟩])]) "2" =
        .select ((extract_services
            [("KVM", [⟨"a", "k1"⟩]), ("DOMAIN", [⟨"d", "d1"⟩])]).get
            ⟨2 - 1, hi⟩)
          (fetch_infos_req
            ((extract_services
              [("KVM", [⟨"a", "k1"⟩]), ("DOMAIN", [⟨"d", "d1"⟩])]).get
              ⟨2 - 1, hi⟩).internal_id
            ((extract_services
              [("KVM", [⟨"a", "k1"⟩]), ("DOMAIN", [⟨"d", "d1"⟩])]).get
              ⟨2 - 1, hi⟩).type)) ∧
    ((extract_services
        [("KVM", [⟨"a", "k1"⟩]), ("DOMAIN", [⟨"d", "d1"⟩])]).filter
        (fun s => s.type == "DOMAIN") = [⟨"d", "d1"⟩].map (svcOf "DOMAIN")) ∧
    main_menu_choice
        (extract_services
          [("KVM", [⟨"a", "k1"⟩]), ("DOMAIN", [⟨"d", "d1"⟩])]) "5" =
      .invalid :=
  ⟨C10_menu_selection.1 [("KVM", [⟨"a", "k1"⟩]), ("DOMAIN", [⟨"d", "d1"⟩])]
      "2" 2 (by decide) (by decide) (by decide),
    C10_menu_selection.2.1 [("KVM", [⟨"a", "k1"⟩]), ("DOMAIN", [⟨"d", "d1"⟩])]
      (by decide) "DOMAIN" [⟨"d", "d1"⟩] (by decide),
    C10_menu_selection.2.2.2 [("KVM", [⟨"a", "k1"⟩]), ("DOMAIN", [⟨"d", "d1"⟩])]
      "5" (by decide)
      (fun k hk => by
        rw [show pyDigitsToNat "5" = some 5 from by decide] at hk
        injection hk with h
        right
        rw [← h]
        decide)⟩

end FireCLI
